import Mathlib

/-!
Shallow embedding of `packages/core/src/embedding/llamacpp-embedding.ts`
(the `LlamaCppEmbedding` adapter) and proofs about its behaviour.

Modelling conventions:
* TypeScript optional fields become `Option` fields; `undefined` is `none`.
* JavaScript numbers are modelled as `Int` (the claims only involve integral
  values); JS truthiness of a number is `≠ 0`, of a string is `≠ ""`, of a
  `boolean | undefined` is `getD false`.
* Thrown errors become an `Except JsError` result; the two error classes
  `LlamaCppConfigurationError` / `LlamaCppNetworkError` are constructors of
  `JsError`, alongside the platform errors the `catch` blocks discriminate on.
* The HTTP layer is a parameter: a `Server` maps a request body to a
  `FetchOutcome` (fetch threw / non-2xx / JSON parse failure / parsed body).
* Stateful methods take and return an `AdapterState`; methods that can issue
  a dimension-detection request also return how many detection requests they
  performed, so request-count claims are statable.
* Object identity (the config object being shared between caller and
  adapter) is modelled separately with an explicit heap of config objects.
-/

namespace LlamaCpp

/-- The `LlamaCppEmbeddingConfig` interface: all fields optional. -/
structure LlamaCppEmbeddingConfig where
  host : Option String := none
  model : Option String := none
  codePrefix : Option Bool := none
  dimension : Option Int := none
  maxTokens : Option Int := none
  timeout : Option Int := none
deriving DecidableEq

/-- Thrown JS errors: the adapter's two error classes plus the platform
errors that `makeRequest`'s catch block discriminates on.
`networkError` carries the optional `originalError`. -/
inductive JsError : Type where
  | configError : String → JsError
  | networkError : String → Option JsError → JsError
  | abortError : JsError
  | typeError : String → JsError
  | otherError : String → JsError
  | nonError : JsError

/-- JS truthiness of a `number | undefined`: `undefined` and `0` are falsy. -/
def jsTruthyNum (o : Option Int) : Bool :=
  match o with
  | some v => v != 0
  | none => false

/-- JS truthiness of a `boolean | undefined`. -/
def jsTruthyBool (o : Option Bool) : Bool :=
  o.getD false

/-- JS `a || b` for a `string | undefined` left operand: `undefined` and
`""` fall through to the default. -/
def jsOrStr (o : Option String) (d : String) : String :=
  match o with
  | some v => if v = "" then d else v
  | none => d

/-- JS `a || b` for a `number | undefined` left operand. -/
def jsOrInt (o : Option Int) (d : Int) : Int :=
  match o with
  | some v => if v = 0 then d else v
  | none => d

/-- `error instanceof LlamaCppNetworkError || error instanceof
LlamaCppConfigurationError`. -/
def isNetOrConfig (e : JsError) : Bool :=
  match e with
  | .configError _ => true
  | .networkError _ _ => true
  | _ => false

/-- `error instanceof Error`: everything except a thrown non-Error value. -/
def isJsErrorInstance (e : JsError) : Bool :=
  match e with
  | .nonError => false
  | _ => true

/-- The `message` property of an error object (the two adapter classes
prepend their banner in their constructors). -/
def errMessage (e : JsError) : String :=
  match e with
  | .configError m => "LlamaCpp configuration error: " ++ m
  | .networkError m _ => "LlamaCpp network error: " ++ m
  | .abortError => "The operation was aborted"
  | .typeError m => m
  | .otherError m => m
  | .nonError => ""

/-- `msg.includes("fetch")`. -/
def containsFetch (msg : String) : Bool :=
  (msg.splitOn "fetch").length != 1

/-- The default instruction prepended for code search (field `codePrefix`
of the class, distinct from the boolean config toggle of the same name). -/
def defaultCodePrefix : String :=
  "Represent this query for searching relevant code:"

/-- The mutable instance state of a `LlamaCppEmbedding` object.
`config` is held as a value here; aliasing with the caller's object is
modelled separately by the heap-based `RefAdapterState`. -/
structure AdapterState where
  config : LlamaCppEmbeddingConfig
  dimension : Int
  dimensionDetected : Bool
  maxTokens : Int
  host : String
  codePrefix : String
deriving DecidableEq

/-- Model of `String.prototype.startsWith`, stated on the character list
so that it evaluates inside the kernel. -/
def strStartsWith (s p : String) : Bool :=
  p.data.isPrefixOf s.data

/-- Model of `String.prototype.endsWith` (same remark). -/
def strEndsWith (s p : String) : Bool :=
  p.data.isSuffixOf s.data

/-- Drop the final character of a string. -/
def strDropLast (s : String) : String :=
  ⟨s.data.dropLast⟩

/-- Model of `String.prototype.trim`: strip whitespace at both ends. -/
def strTrim (s : String) : String :=
  ⟨((s.data.dropWhile Char.isWhitespace).reverse.dropWhile Char.isWhitespace).reverse⟩

/-- `normalizeHost`: strip one trailing slash (`host.replace(/\/$/, '')`). -/
def normalizeHost (host : String) : String :=
  if strEndsWith host "/" then strDropLast host else host

/-- Model of `new URL(host)` scheme extraction: parsing succeeds when the
string has a nonempty part before a colon; the `protocol` is that part
followed by `":"`. (The WHATWG parser is a platform API; only the scheme
is consulted by this adapter.) -/
def parseProtocol (host : String) : Option String :=
  match host.splitOn ":" with
  | [] => none
  | [_] => none
  | scheme :: _ => if scheme = "" then none else some (scheme ++ ":")

/-- `validateHostUrl`: URL must parse and use http/https. -/
def validateHostUrl (host : String) : Except JsError Unit :=
  match parseProtocol host with
  | none => .error (.configError ("Invalid host URL: " ++ host))
  | some proto =>
    if proto = "http:" || proto = "https:" then .ok ()
    else .error (.configError ("Unsupported protocol: " ++ proto ++
      ". Only HTTP and HTTPS are supported"))

/-- `validateConfig`: type checks are vacuous in the typed model; the
residual checks are the timeout positivity check and, when `config.host`
is truthy, the URL validation. -/
def validateConfig (cfg : LlamaCppEmbeddingConfig) : Except JsError Unit :=
  match cfg.timeout with
  | some t =>
    if t ≤ 0 then .error (.configError "Timeout must be a positive number")
    else
      match cfg.host with
      | some h => if h = "" then .ok () else validateHostUrl h
      | none => .ok ()
  | none =>
    match cfg.host with
    | some h => if h = "" then .ok () else validateHostUrl h
    | none => .ok ()

/-- The field values assigned before the conditional blocks of the
constructor run. -/
def initialState (cfg : LlamaCppEmbeddingConfig) : AdapterState where
  config := cfg
  dimension := 768
  dimensionDetected := false
  maxTokens := 8192
  host := normalizeHost (jsOrStr cfg.host "http://localhost:8080")
  codePrefix := defaultCodePrefix

/-- Constructor block `if (config.dimension) { ... }`: note the JS
truthiness guard, so a present-but-zero dimension skips the whole block. -/
def applyDimension (cfg : LlamaCppEmbeddingConfig) (s : AdapterState) :
    Except JsError AdapterState :=
  match cfg.dimension with
  | some d =>
    if d != 0 then
      if d ≤ 0 then .error (.configError "Dimension must be a positive number")
      else .ok { s with dimension := d, dimensionDetected := true }
    else .ok s
  | none => .ok s

/-- Constructor block `if (config.maxTokens) { ... }` (same truthiness
guard). -/
def applyMaxTokens (cfg : LlamaCppEmbeddingConfig) (s : AdapterState) :
    Except JsError AdapterState :=
  match cfg.maxTokens with
  | some m =>
    if m != 0 then
      if m ≤ 0 then .error (.configError "Max tokens must be a positive number")
      else .ok { s with maxTokens := m }
    else .ok s
  | none => .ok s

/-- Constructor block `if (config.codePrefix === undefined)
{ this.config.codePrefix = true; }`. -/
def applyDefaultCodePrefix (s : AdapterState) : AdapterState :=
  if s.config.codePrefix.isNone then
    { s with config := { s.config with codePrefix := some true } }
  else s

/-- The `LlamaCppEmbedding` constructor as a fallible state builder. -/
def construct (cfg : LlamaCppEmbeddingConfig) : Except JsError AdapterState :=
  match validateConfig cfg with
  | .error e => .error e
  | .ok _ =>
    match applyDimension cfg (initialState cfg) with
    | .error e => .error e
    | .ok s1 =>
      match applyMaxTokens cfg s1 with
      | .error e => .error e
      | .ok s2 => .ok (applyDefaultCodePrefix s2)

/-- Modelled from the spec: the base-class method `Embedding.preprocessText`
is not part of this repository's sources; the spec names it only as "a
text-preprocessing hook supplied by a shared base" with no transformation
of its own, so it is modelled as the identity. -/
def preprocessText (text : String) : String :=
  text

/-- `preprocessTextForCode`: optionally prepend the code prefix (typed
model, so the string type check cannot fail). -/
def preprocessTextForCode (s : AdapterState) (text : String) : String :=
  let processedText := preprocessText text
  if jsTruthyBool s.config.codePrefix && !(strStartsWith processedText s.codePrefix) then
    s.codePrefix ++ " " ++ processedText
  else
    processedText

/-- The model name placed in every outbound request body:
`this.config.model || 'embedding-model'`. -/
def requestModel (s : AdapterState) : String :=
  jsOrStr s.config.model "embedding-model"

/-- `getModel`: `this.config.model || 'nomic-embed-code'`. -/
def getModel (s : AdapterState) : String :=
  jsOrStr s.config.model "nomic-embed-code"

/-- `getDimension`. -/
def getDimension (s : AdapterState) : Int :=
  s.dimension

/-- `getProvider`. -/
def getProvider : String :=
  "LlamaCpp"

/-- `getConfig` in the pure model: `{ ...this.config }`. -/
def getConfig (s : AdapterState) : LlamaCppEmbeddingConfig :=
  s.config

/-- The `input` field of a request body: a single string or an array. -/
inductive RequestInput : Type where
  | single : String → RequestInput
  | batch : List String → RequestInput
deriving DecidableEq

/-- The JSON body of a `POST {host}/v1/embeddings` request. -/
structure RequestBody where
  input : RequestInput
  model : String
deriving DecidableEq

/-- One element of the response `data` array. `embedding = none` models a
missing or non-array `embedding` property. -/
structure ResponseItem where
  embedding : Option (List Int)
deriving DecidableEq

/-- A parsed response object. `data = none` models a missing or non-array
`data` property; an inner `none` models a non-object array element. -/
structure EmbedResponse where
  data : Option (List (Option ResponseItem))
deriving DecidableEq

/-- A parsed response body; `none` models a non-object JSON value. -/
abbrev ServerResponse := Option EmbedResponse

/-- Possible outcomes of the `fetch` + body-reading phase of `makeRequest`:
the fetch promise rejected with an error; a non-2xx status (with the
best-effort body text, `none` when reading it failed); a 2xx status whose
body failed to parse as JSON (`badJson` carries what `response.json()`
threw); or a parsed JSON body. -/
inductive FetchOutcome : Type where
  | thrown : JsError → FetchOutcome
  | notOk : Nat → String → Option String → FetchOutcome
  | badJson : JsError → FetchOutcome
  | ok : ServerResponse → FetchOutcome

/-- The environment: what the server (and transport) does with each
request body. -/
def Server : Type :=
  RequestBody → FetchOutcome

/-- The catch block of `makeRequest`: LlamaCpp errors are re-thrown
unchanged, `AbortError` becomes a timeout `NetworkError`, a fetch
`TypeError` becomes a connection `NetworkError`, any other `Error` is
wrapped generically, and a non-Error value yields a generic message with
no original error. -/
def makeRequestCatch (s : AdapterState) (timeout : Int) (e : JsError) : JsError :=
  match e with
  | .configError m => .configError m
  | .networkError m o => .networkError m o
  | .abortError =>
    .networkError ("Request timeout after " ++ toString timeout ++
      "ms - server at " ++ s.host ++ " not responding") (some e)
  | .typeError msg =>
    if containsFetch msg then
      .networkError ("Unable to connect to llama.cpp server at " ++ s.host ++
        ". Please ensure the server is running and accessible.") (some e)
    else .networkError ("Unexpected error: " ++ errMessage e) (some e)
  | .otherError _ => .networkError ("Unexpected error: " ++ errMessage e) (some e)
  | .nonError => .networkError "Unknown error occurred during request" none

/-- `makeRequest` given the fetch outcome for this call. The `NetworkError`s
thrown inside the try block (non-2xx status, JSON parse failure) reach the
catch block, which re-throws them unchanged. -/
def makeRequest (s : AdapterState) (outcome : FetchOutcome) :
    Except JsError ServerResponse :=
  let timeout := jsOrInt s.config.timeout 30000
  match outcome with
  | .ok r => .ok r
  | .notOk status statusText bodyText =>
    let errorDetails := bodyText.getD "Unable to read error response"
    .error (.networkError ("HTTP " ++ toString status ++ " (" ++ statusText ++
      "): " ++ errorDetails) none)
  | .badJson parseErr =>
    .error (.networkError "Invalid JSON response from server"
      (if isJsErrorInstance parseErr then some parseErr else none))
  | .thrown e => .error (makeRequestCatch s timeout e)

/-- The response-shape validation shared verbatim by `embed` and
`detectDimension`: object, non-empty `data` array, first element an object
with an `embedding` array. -/
def validateSingleResponse (resp : ServerResponse) : Except JsError (List Int) :=
  match resp with
  | none => .error (.networkError "Invalid response format: expected object" none)
  | some r =>
    match r.data with
    | none => .error (.networkError
        "Invalid response format: missing or invalid data array" none)
    | some items =>
      match items with
      | [] => .error (.networkError "Invalid response format: empty data array" none)
      | firstItem :: _ =>
        match firstItem with
        | none => .error (.networkError
            "Invalid response format: invalid first data item" none)
        | some it =>
          match it.embedding with
          | none => .error (.networkError
              "Invalid response format: missing or invalid embedding array" none)
          | some emb => .ok emb

/-- The request body built by `detectDimension` (prefix-free test text). -/
def detectRequestBody (s : AdapterState) (testText : String) : RequestBody where
  input := .single (preprocessText testText)
  model := requestModel s

/-- The try block of `detectDimension`: issue the request, validate the
shape, and require a positive embedding length. -/
def detectDimensionTry (s : AdapterState) (server : Server) (testText : String) :
    Except JsError Nat :=
  match makeRequest s (server (detectRequestBody s testText)) with
  | .error e => .error e
  | .ok resp =>
    match validateSingleResponse resp with
    | .error e => .error e
    | .ok emb =>
      let dimension := emb.length
      if dimension = 0 then
        .error (.networkError ("Invalid embedding dimension: " ++ toString dimension) none)
      else .ok dimension

/-- The catch block of `detectDimension`: LlamaCpp errors pass through
unchanged, everything else is wrapped into a `NetworkError`. -/
def detectDimensionCatch (r : Except JsError Nat) : Except JsError Nat :=
  match r with
  | .ok d => .ok d
  | .error e =>
    if isNetOrConfig e then .error e
    else .error (.networkError ("Failed to detect embedding dimension: " ++
        (if isJsErrorInstance e then errMessage e else "Unknown error"))
      (if isJsErrorInstance e then some e else none))

/-- `detectDimension` (typed model, so the test-text string check cannot
fail). -/
def detectDimension (s : AdapterState) (server : Server) (testText : String) :
    Except JsError Nat :=
  detectDimensionCatch (detectDimensionTry s server testText)

/-- `ensureDimensionDetected`, additionally reporting how many
dimension-detection requests it issued (0 or 1). -/
def ensureDimensionDetected (s : AdapterState) (server : Server) :
    Except JsError (AdapterState × Nat) :=
  if !s.dimensionDetected && !(jsTruthyNum s.config.dimension) then
    match detectDimension s server "test" with
    | .error e => .error e
    | .ok d => .ok ({ s with dimension := (d : Int), dimensionDetected := true }, 1)
  else .ok (s, 0)

/-- An embedding result: `{ vector, dimension }`. -/
structure EmbeddingVector where
  vector : List Int
  dimension : Int
deriving DecidableEq

/-- The request body built by `embed`. -/
def embedRequestBody (s : AdapterState) (text : String) : RequestBody where
  input := .single (preprocessTextForCode s text)
  model := requestModel s

/-- `embed`, additionally reporting the number of dimension-detection
requests issued during the call. -/
def embed (s : AdapterState) (server : Server) (text : String) :
    Except JsError (EmbeddingVector × AdapterState × Nat) :=
  match ensureDimensionDetected s server with
  | .error e => .error e
  | .ok (s1, n) =>
    match makeRequest s1 (server (embedRequestBody s1 text)) with
    | .error e => .error e
    | .ok resp =>
      match validateSingleResponse resp with
      | .error e => .error e
      | .ok emb => .ok ({ vector := emb, dimension := s1.dimension }, s1, n)

/-- Whether a `data` element makes `embedBatch` throw: a non-object item,
or an item without a valid `embedding` array. -/
def itemIsBad (it : Option ResponseItem) : Bool :=
  match it with
  | none => true
  | some r => r.embedding.isNone

/-- The embedding list of a well-formed `data` element. -/
def itemEmbedding (it : Option ResponseItem) : List Int :=
  (it.bind ResponseItem.embedding).getD []

/-- The error message `embedBatch` throws for the bad element at `i`. -/
def badItemMsg (it : Option ResponseItem) (i : Nat) : String :=
  match it with
  | none => "Invalid batch response format: invalid item at index " ++ toString i
  | some _ => "Invalid batch response format: missing or invalid embedding at index " ++
      toString i

/-- The `response.data.map((item, index) => ...)` loop of `embedBatch`:
left to right, throwing at the first invalid element. -/
def mapBatchItems (dim : Int) : List (Option ResponseItem) → Nat →
    Except JsError (List EmbeddingVector)
  | [], _ => .ok []
  | it :: rest, i =>
    match it with
    | none => .error (.networkError (badItemMsg none i) none)
    | some r =>
      match r.embedding with
      | none => .error (.networkError (badItemMsg (some r) i) none)
      | some emb =>
        match mapBatchItems dim rest (i + 1) with
        | .error e => .error e
        | .ok tail => .ok ({ vector := emb, dimension := dim } :: tail)

/-- The request body built by `embedBatch`. -/
def embedBatchRequestBody (s : AdapterState) (texts : List String) : RequestBody where
  input := .batch (texts.map (preprocessTextForCode s))
  model := requestModel s

/-- `embedBatch`, additionally reporting the number of dimension-detection
requests issued during the call (the non-array input check is vacuous in
the typed model). -/
def embedBatch (s : AdapterState) (server : Server) (texts : List String) :
    Except JsError (List EmbeddingVector × AdapterState × Nat) :=
  if texts.isEmpty then .error (.configError "Texts array cannot be empty")
  else
    match ensureDimensionDetected s server with
    | .error e => .error e
    | .ok (s1, n) =>
      match makeRequest s1 (server (embedBatchRequestBody s1 texts)) with
      | .error e => .error e
      | .ok resp =>
        match resp with
        | none => .error (.networkError "Invalid batch response format: expected object" none)
        | some r =>
          match r.data with
          | none => .error (.networkError
              "Invalid batch response format: missing or invalid data array" none)
          | some items =>
            if items.isEmpty then
              .error (.networkError "Invalid batch response format: empty data array" none)
            else
              match mapBatchItems s1.dimension items 0 with
              | .error e => .error e
              | .ok vecs => .ok (vecs, s1, n)

/-- `setHost` (count of detection requests is 0: the method body performs
no network call). -/
def setHost (s : AdapterState) (host : String) :
    Except JsError (AdapterState × Nat) :=
  match validateHostUrl host with
  | .error e => .error e
  | .ok _ => .ok ({ s with
      host := normalizeHost host
      config := { s.config with host := some host } }, 0)

/-- The state after `setModel` stores the new name and clears the detected
flag, before any re-detection runs. -/
def setModelIntermediate (s : AdapterState) (model : String) : AdapterState :=
  { s with config := { s.config with model := some model }, dimensionDetected := false }

/-- `setModel`: update the name, clear the detected flag, and when no
fixed dimension is configured immediately re-run detection. -/
def setModel (s : AdapterState) (server : Server) (model : String) :
    Except JsError (AdapterState × Nat) :=
  if strTrim model = "" then .error (.configError "Model name cannot be empty")
  else
    let s1 := setModelIntermediate s model
    if !(jsTruthyNum s1.config.dimension) then ensureDimensionDetected s1 server
    else .ok (s1, 0)

/-- `setCodePrefix` (no validation can fail in the typed model; no network
call). -/
def setCodePrefix (s : AdapterState) (enabled : Bool) : AdapterState × Nat :=
  ({ s with config := { s.config with codePrefix := some enabled } }, 0)

/-- `setCustomCodePrefix`: non-empty after trim, also forces the toggle on. -/
def setCustomCodePrefix (s : AdapterState) (p : String) :
    Except JsError (AdapterState × Nat) :=
  if strTrim p = "" then .error (.configError "Code prefix cannot be empty")
  else .ok ({ s with
      codePrefix := p
      config := { s.config with codePrefix := some true } }, 0)

/-- `setTimeout`: positive and at most 600000 ms. -/
def setTimeout (s : AdapterState) (timeout : Int) :
    Except JsError (AdapterState × Nat) :=
  if timeout ≤ 0 then .error (.configError "Timeout must be a positive number")
  else if timeout > 600000 then
    .error (.configError "Timeout cannot exceed 600000ms (10 minutes)")
  else .ok ({ s with config := { s.config with timeout := some timeout } }, 0)

/-!
Heap model of JS object identity, used for the claims about the config
object being shared (constructor) or copied (`getConfig`). A heap maps
object references (naturals) to config objects; `next` is the next fresh
reference. -/

/-- A heap of config objects. -/
structure Heap where
  mem : Nat → LlamaCppEmbeddingConfig
  next : Nat

/-- Read the object at a reference. -/
def heapGet (h : Heap) (r : Nat) : LlamaCppEmbeddingConfig :=
  h.mem r

/-- Overwrite the object at a reference. -/
def heapSet (h : Heap) (r : Nat) (c : LlamaCppEmbeddingConfig) : Heap :=
  { h with mem := fun i => if i = r then c else h.mem i }

/-- Allocate a fresh object, returning the new heap and its reference. -/
def heapAlloc (h : Heap) (c : LlamaCppEmbeddingConfig) : Heap × Nat :=
  ({ mem := fun i => if i = h.next then c else h.mem i, next := h.next + 1 }, h.next)

/-- Adapter state holding the config by reference, as
`this.config = config` does. -/
structure RefAdapterState where
  configRef : Nat
  dimension : Int
  dimensionDetected : Bool
  maxTokens : Int
  host : String
  codePrefix : String

/-- The constructor over the heap: it validates and reads the caller's
object in place, stores its reference, and (when `codePrefix` is
undefined) writes `codePrefix = true` back into the caller's object. -/
def constructRef (h : Heap) (r : Nat) : Except JsError (Heap × RefAdapterState) :=
  match construct (heapGet h r) with
  | .error e => .error e
  | .ok s => .ok (heapSet h r s.config,
      { configRef := r, dimension := s.dimension, dimensionDetected := s.dimensionDetected,
        maxTokens := s.maxTokens, host := s.host, codePrefix := s.codePrefix })

/-- `getConfig` over the heap: `{ ...this.config }` allocates a fresh
object holding the same field values. -/
def getConfigRef (h : Heap) (s : RefAdapterState) : Heap × Nat :=
  heapAlloc h (heapGet h s.configRef)

/-- A mutation of one field of a config object. -/
inductive FieldWrite : Type where
  | hostW : Option String → FieldWrite
  | modelW : Option String → FieldWrite
  | codePrefixW : Option Bool → FieldWrite
  | dimensionW : Option Int → FieldWrite
  | maxTokensW : Option Int → FieldWrite
  | timeoutW : Option Int → FieldWrite

/-- Apply a field mutation to a config value. -/
def applyWrite (cfg : LlamaCppEmbeddingConfig) : FieldWrite → LlamaCppEmbeddingConfig
  | .hostW v => { cfg with host := v }
  | .modelW v => { cfg with model := v }
  | .codePrefixW v => { cfg with codePrefix := v }
  | .dimensionW v => { cfg with dimension := v }
  | .maxTokensW v => { cfg with maxTokens := v }
  | .timeoutW v => { cfg with timeout := v }

/-- Mutate one field of the object at a reference. -/
def heapWrite (h : Heap) (r : Nat) (w : FieldWrite) : Heap :=
  heapSet h r (applyWrite (heapGet h r) w)

/-- `preprocessTextForCode` reading the live config through the heap. -/
def preprocessTextForCodeRef (h : Heap) (s : RefAdapterState) (text : String) : String :=
  let processedText := preprocessText text
  if jsTruthyBool (heapGet h s.configRef).codePrefix &&
      !(strStartsWith processedText s.codePrefix) then
    s.codePrefix ++ " " ++ processedText
  else
    processedText

/-!
Concrete fixtures used by the witness theorems.
-/

/-- A config with only `codePrefix` set (so the constructor leaves the
caller's object unchanged). -/
def sampleConfig : LlamaCppEmbeddingConfig where
  codePrefix := some true

/-- The adapter state `construct sampleConfig` produces. -/
def sampleState : AdapterState where
  config := sampleConfig
  dimension := 768
  dimensionDetected := false
  maxTokens := 8192
  host := "http://localhost:8080"
  codePrefix := defaultCodePrefix

/-- `sampleState` after a successful detection of dimension 4. -/
def detectedState : AdapterState :=
  { sampleState with dimension := 4, dimensionDetected := true }

/-- `sampleState` after `setModel "m"` with detection of dimension 4. -/
def modelState : AdapterState :=
  { setModelIntermediate sampleState "m" with dimension := 4, dimensionDetected := true }

/-- A server answering every request with one embedding of length `d`. -/
def goodServer (d : Nat) : Server :=
  fun _ => .ok (some { data := some [some { embedding := some (List.replicate d 0) }] })

/-- A server answering with two well-formed batch elements. -/
def batchServer : Server :=
  fun _ => .ok (some { data := some [some { embedding := some [1, 2] },
    some { embedding := some [3, 4] }] })

/-- A server whose second batch element has no `embedding` field. -/
def badBatchServer : Server :=
  fun _ => .ok (some { data := some [some { embedding := some [1, 2] },
    some { embedding := none }] })

/-- An all-`undefined` config (valid: everything defaulted). -/
def cpNoneConfig : LlamaCppEmbeddingConfig where

/-- A one-object heap holding `cpNoneConfig` at reference 0. -/
def sampleHeap : Heap where
  mem := fun _ => cpNoneConfig
  next := 1

/-- The heap after `constructRef sampleHeap 0` wrote `codePrefix = true`
into the caller's object. -/
def sampleHeapAfter : Heap :=
  heapSet sampleHeap 0 { cpNoneConfig with codePrefix := some true }

/-- The ref-state `constructRef sampleHeap 0` produces. -/
def sampleRefState : RefAdapterState where
  configRef := 0
  dimension := 768
  dimensionDetected := false
  maxTokens := 8192
  host := "http://localhost:8080"
  codePrefix := defaultCodePrefix

/-- A config with a present-but-zero dimension override. -/
def zeroDimCfg : LlamaCppEmbeddingConfig where
  codePrefix := some true
  dimension := some 0

/-- The state `construct zeroDimCfg` produces. -/
def zeroDimState : AdapterState where
  config := zeroDimCfg
  dimension := 768
  dimensionDetected := false
  maxTokens := 8192
  host := "http://localhost:8080"
  codePrefix := defaultCodePrefix

/-- A config whose timeout exceeds the documented 600000 ms cap. -/
def bigTimeoutCfg : LlamaCppEmbeddingConfig where
  codePrefix := some true
  timeout := some 700000

/-- The state `construct bigTimeoutCfg` produces. -/
def bigTimeoutState : AdapterState where
  config := bigTimeoutCfg
  dimension := 768
  dimensionDetected := false
  maxTokens := 8192
  host := "http://localhost:8080"
  codePrefix := defaultCodePrefix

/-- A config with a negative dimension override. -/
def negDimCfg : LlamaCppEmbeddingConfig where
  codePrefix := some true
  dimension := some (-5)

/-- Whether a result is a thrown `LlamaCppConfigurationError`. -/
def isConfigErrorResult {α : Type} (r : Except JsError α) : Bool :=
  match r with
  | .error (.configError _) => true
  | _ => false

/-!
Helper lemmas shared by the claim theorems.
-/

theorem validateHostUrl_error {h : String} {e : JsError}
    (hE : validateHostUrl h = .error e) : ∃ m, e = .configError m := by
  unfold validateHostUrl at hE
  split at hE
  · exact ⟨_, (Except.error.inj hE).symm⟩
  · split at hE
    · exact absurd hE (by simp)
    · exact ⟨_, (Except.error.inj hE).symm⟩

theorem validateConfig_error {cfg : LlamaCppEmbeddingConfig} {e : JsError}
    (hE : validateConfig cfg = .error e) : ∃ m, e = .configError m := by
  unfold validateConfig at hE
  split at hE
  · split at hE
    · exact ⟨_, (Except.error.inj hE).symm⟩
    · split at hE
      · split at hE
        · exact absurd hE (by simp)
        · exact validateHostUrl_error hE
      · exact absurd hE (by simp)
  · split at hE
    · split at hE
      · exact absurd hE (by simp)
      · exact validateHostUrl_error hE
    · exact absurd hE (by simp)

theorem applyDimension_inv {cfg : LlamaCppEmbeddingConfig} {s s' : AdapterState}
    (h : applyDimension cfg s = .ok s') :
    s'.config = s.config ∧ s'.codePrefix = s.codePrefix ∧ s'.host = s.host ∧
    s'.maxTokens = s.maxTokens ∧
    (jsTruthyNum cfg.dimension = false → s' = s) := by
  unfold applyDimension at h
  split at h
  · next d hd =>
    split at h
    · next hnz =>
      split at h
      · exact absurd h (by simp)
      · replace h := Except.ok.inj h
        subst h
        refine ⟨rfl, rfl, rfl, rfl, ?_⟩
        intro hf
        rw [hd] at hf
        simp [jsTruthyNum, hnz] at hf
    · replace h := Except.ok.inj h
      subst h
      exact ⟨rfl, rfl, rfl, rfl, fun _ => rfl⟩
  · replace h := Except.ok.inj h
    subst h
    exact ⟨rfl, rfl, rfl, rfl, fun _ => rfl⟩

theorem applyMaxTokens_inv {cfg : LlamaCppEmbeddingConfig} {s s' : AdapterState}
    (h : applyMaxTokens cfg s = .ok s') :
    s'.config = s.config ∧ s'.codePrefix = s.codePrefix ∧ s'.host = s.host ∧
    s'.dimension = s.dimension ∧ s'.dimensionDetected = s.dimensionDetected := by
  unfold applyMaxTokens at h
  split at h
  · split at h
    · split at h
      · exact absurd h (by simp)
      · replace h := Except.ok.inj h
        subst h
        exact ⟨rfl, rfl, rfl, rfl, rfl⟩
    · replace h := Except.ok.inj h
      subst h
      exact ⟨rfl, rfl, rfl, rfl, rfl⟩
  · replace h := Except.ok.inj h
    subst h
    exact ⟨rfl, rfl, rfl, rfl, rfl⟩

theorem applyDefaultCodePrefix_inv (s : AdapterState) :
    (applyDefaultCodePrefix s).codePrefix = s.codePrefix ∧
    (applyDefaultCodePrefix s).host = s.host ∧
    (applyDefaultCodePrefix s).dimension = s.dimension ∧
    (applyDefaultCodePrefix s).dimensionDetected = s.dimensionDetected ∧
    (applyDefaultCodePrefix s).config.model = s.config.model ∧
    (applyDefaultCodePrefix s).config.dimension = s.config.dimension ∧
    (s.config.codePrefix = none → (applyDefaultCodePrefix s).config.codePrefix = some true) := by
  unfold applyDefaultCodePrefix
  split
  · exact ⟨rfl, rfl, rfl, rfl, rfl, rfl, fun _ => rfl⟩
  · next hcond =>
    refine ⟨rfl, rfl, rfl, rfl, rfl, rfl, fun hn => ?_⟩
    exact absurd (by simp [hn]) hcond

theorem construct_ok_inv {cfg : LlamaCppEmbeddingConfig} {s : AdapterState}
    (h : construct cfg = .ok s) :
    s.codePrefix = defaultCodePrefix ∧
    s.config.model = cfg.model ∧
    s.config.dimension = cfg.dimension ∧
    (cfg.codePrefix = none → s.config.codePrefix = some true) ∧
    (jsTruthyNum cfg.dimension = false → s.dimension = 768 ∧ s.dimensionDetected = false) := by
  unfold construct at h
  split at h
  · exact absurd h (by simp)
  · split at h
    · exact absurd h (by simp)
    · next s1 h1 =>
      split at h
      · exact absurd h (by simp)
      · next s2 h2 =>
        replace h := Except.ok.inj h
        subst h
        obtain ⟨hc1, hp1, hh1, hm1, hid1⟩ := applyDimension_inv h1
        obtain ⟨hc2, hp2, hh2, hd2, hdet2⟩ := applyMaxTokens_inv h2
        obtain ⟨hp3, hh3, hd3, hdet3, hmod3, hdim3, hcp3⟩ := applyDefaultCodePrefix_inv s2
        have hcfg2 : s2.config = cfg := by rw [hc2, hc1]; rfl
        refine ⟨?_, ?_, ?_, ?_, ?_⟩
        · rw [hp3, hp2, hp1]; rfl
        · rw [hmod3, hcfg2]
        · rw [hdim3, hcfg2]
        · intro hn
          exact hcp3 (by rw [hcfg2]; exact hn)
        · intro hf
          have hs1 : s1 = initialState cfg := hid1 hf
          constructor
          · rw [hd3, hd2, hs1]; rfl
          · rw [hdet3, hdet2, hs1]; rfl

theorem makeRequestCatch_netOrConfig (s : AdapterState) (t : Int) (e : JsError) :
    isNetOrConfig (makeRequestCatch s t e) = true := by
  cases e with
  | configError m => rfl
  | networkError m o => rfl
  | abortError => rfl
  | typeError m =>
    unfold makeRequestCatch
    split <;> try rfl
    split <;> rfl
  | otherError m => rfl
  | nonError => rfl

theorem ensure_noop {s : AdapterState} (server : Server)
    (h : s.dimensionDetected = true) :
    ensureDimensionDetected s server = .ok (s, 0) := by
  unfold ensureDimensionDetected
  rw [h]
  rfl

theorem ensure_fresh_ok {s : AdapterState} {server : Server} {s' : AdapterState} {n : Nat}
    (h1 : s.dimensionDetected = false)
    (h2 : jsTruthyNum s.config.dimension = false)
    (h : ensureDimensionDetected s server = .ok (s', n)) :
    n = 1 ∧ s'.dimensionDetected = true ∧ s'.config = s.config ∧
    ∃ d, detectDimension s server "test" = .ok d ∧ s'.dimension = (d : Int) := by
  unfold ensureDimensionDetected at h
  rw [h1, h2] at h
  simp only [Bool.not_false, Bool.and_self, if_true] at h
  split at h
  · exact absurd h (by simp)
  · next d hd =>
    replace h := Except.ok.inj h
    rw [Prod.mk.injEq] at h
    obtain ⟨hs, hn⟩ := h
    subst hs
    subst hn
    exact ⟨rfl, rfl, rfl, d, hd, rfl⟩

theorem embed_ok_ensure {s : AdapterState} {server : Server} {t : String}
    {v : EmbeddingVector} {s' : AdapterState} {n : Nat}
    (h : embed s server t = .ok (v, s', n)) :
    ensureDimensionDetected s server = .ok (s', n) := by
  unfold embed at h
  split at h
  · exact absurd h (by simp)
  · next s1 n1 he =>
    split at h
    · exact absurd h (by simp)
    · split at h
      · exact absurd h (by simp)
      · replace h := Except.ok.inj h
        rw [Prod.mk.injEq] at h
        obtain ⟨-, h2⟩ := h
        rw [Prod.mk.injEq] at h2
        obtain ⟨h2a, h2b⟩ := h2
        rw [← h2a, ← h2b]
        exact he

theorem embedBatch_ok_ensure {s : AdapterState} {server : Server} {texts : List String}
    {vs : List EmbeddingVector} {s' : AdapterState} {n : Nat}
    (h : embedBatch s server texts = .ok (vs, s', n)) :
    ensureDimensionDetected s server = .ok (s', n) := by
  unfold embedBatch at h
  split at h
  · exact absurd h (by simp)
  · split at h
    · exact absurd h (by simp)
    · next s1 n1 he =>
      split at h
      · exact absurd h (by simp)
      · split at h
        · exact absurd h (by simp)
        · split at h
          · exact absurd h (by simp)
          · split at h
            · exact absurd h (by simp)
            · split at h
              · exact absurd h (by simp)
              · replace h := Except.ok.inj h
                rw [Prod.mk.injEq] at h
                obtain ⟨-, h2⟩ := h
                rw [Prod.mk.injEq] at h2
                obtain ⟨h2a, h2b⟩ := h2
                rw [← h2a, ← h2b]
                exact he

/-!
Claim theorems.
-/

/-- C1: when automatic code prefixing is enabled, the processed text sent
to the server equals the text itself when it already starts with the
configured prefix, and the prefix plus a single space plus the text
otherwise — the prefix is never duplicated; `embedBatch` applies the same
processing to every element of its input. -/
theorem code_prefix_not_duplicated (s : AdapterState) (text : String)
    (hOn : jsTruthyBool s.config.codePrefix = true) :
    (strStartsWith text s.codePrefix = true → preprocessTextForCode s text = text) ∧
    (strStartsWith text s.codePrefix = false →
      preprocessTextForCode s text = s.codePrefix ++ " " ++ text) ∧
    (embedRequestBody s text).input = .single (preprocessTextForCode s text) ∧
    (∀ texts, (embedBatchRequestBody s texts).input =
      .batch (texts.map (preprocessTextForCode s))) := by
  refine ⟨?_, ?_, rfl, fun _ => rfl⟩
  · intro h
    simp [preprocessTextForCode, preprocessText, hOn, h]
  · intro h
    simp [preprocessTextForCode, preprocessText, hOn, h]

/-- C1 witness: with the prefix enabled, `"foo"` gets the prefix and a
space prepended, and a text already carrying the prefix is unchanged. -/
theorem code_prefix_not_duplicated_witness :
    jsTruthyBool sampleState.config.codePrefix = true ∧
    preprocessTextForCode sampleState "foo" = sampleState.codePrefix ++ " " ++ "foo" ∧
    preprocessTextForCode sampleState (defaultCodePrefix ++ " bar") =
      defaultCodePrefix ++ " bar" :=
  ⟨rfl,
   (code_prefix_not_duplicated sampleState "foo" rfl).2.1 (by decide),
   (code_prefix_not_duplicated sampleState (defaultCodePrefix ++ " bar") rfl).1 (by decide)⟩

/-- C2 counterexample: a dimension override that is present and zero (so
not positive) does not fail construction — the truthiness guard
`if (config.dimension)` skips the check and the default 768 is kept. -/
theorem zero_dimension_accepted :
    zeroDimCfg.dimension = some 0 ∧ construct zeroDimCfg = .ok zeroDimState :=
  ⟨rfl, rfl⟩

/-- C2 (amended): a negative dimension override makes construction fail
with a ConfigurationError; a present-but-zero override is instead treated
as absent, so construction (when otherwise valid) succeeds with the
default dimension 768 and detection still pending. -/
theorem construct_dimension_check (cfg : LlamaCppEmbeddingConfig) (d : Int)
    (hd : cfg.dimension = some d) :
    (d < 0 → isConfigErrorResult (construct cfg) = true) ∧
    (d = 0 → ∀ s, construct cfg = .ok s →
      s.dimension = 768 ∧ s.dimensionDetected = false) := by
  constructor
  · intro hneg
    have hda : applyDimension cfg (initialState cfg) =
        .error (.configError "Dimension must be a positive number") := by
      have hnz : (d != 0) = true := by simp; omega
      have hle : d ≤ 0 := le_of_lt hneg
      simp [applyDimension, hd, hnz, hle]
    unfold construct
    cases hv : validateConfig cfg with
    | error e =>
      obtain ⟨m, hm⟩ := validateConfig_error hv
      rw [hm]
      rfl
    | ok u =>
      rw [hda]
      rfl
  · intro h0 s hs
    exact (construct_ok_inv hs).2.2.2.2 (by rw [hd, h0]; rfl)

/-- C2 witness: a negative override is rejected, and the zero override of
the counterexample leaves the default dimension with detection pending. -/
theorem construct_dimension_check_witness :
    negDimCfg.dimension = some (-5) ∧
    isConfigErrorResult (construct negDimCfg) = true ∧
    zeroDimState.dimension = 768 ∧ zeroDimState.dimensionDetected = false :=
  ⟨rfl,
   (construct_dimension_check negDimCfg (-5) rfl).1 (by decide),
   ((construct_dimension_check zeroDimCfg 0 rfl).2 rfl zeroDimState rfl).1,
   ((construct_dimension_check zeroDimCfg 0 rfl).2 rfl zeroDimState rfl).2⟩

/-- C3 counterexample: construction accepts a timeout of 700000 ms, above
the documented 600000 ms cap, and stores it — the cap is not enforced for
every operation that accepts a timeout. -/
theorem construct_accepts_large_timeout :
    bigTimeoutCfg.timeout = some 700000 ∧
    construct bigTimeoutCfg = .ok bigTimeoutState ∧
    bigTimeoutState.config.timeout = some 700000 :=
  ⟨rfl, rfl, rfl⟩

/-- C3 (amended): only `setTimeout` enforces the 600000 ms cap — it
rejects larger values (and non-positive ones) with ConfigurationError and
stores valid ones; construction accepts any positive timeout. -/
theorem setTimeout_enforces_cap (s : AdapterState) (t : Int) :
    (600000 < t →
      setTimeout s t = .error (.configError "Timeout cannot exceed 600000ms (10 minutes)")) ∧
    (t ≤ 0 → setTimeout s t = .error (.configError "Timeout must be a positive number")) ∧
    (0 < t → t ≤ 600000 →
      setTimeout s t = .ok ({ s with config := { s.config with timeout := some t } }, 0)) := by
  refine ⟨?_, ?_, ?_⟩
  · intro hgt
    unfold setTimeout
    rw [if_neg (by omega), if_pos (by omega)]
  · intro hle
    unfold setTimeout
    rw [if_pos hle]
  · intro h1 h2
    unfold setTimeout
    rw [if_neg (by omega), if_neg (by omega)]

/-- C3 witness: 700000 ms is rejected by `setTimeout`, 0 is rejected, and
5000 ms is stored. -/
theorem setTimeout_enforces_cap_witness :
    setTimeout sampleState 700000 =
      .error (.configError "Timeout cannot exceed 600000ms (10 minutes)") ∧
    setTimeout sampleState 0 = .error (.configError "Timeout must be a positive number") ∧
    setTimeout sampleState 5000 =
      .ok ({ sampleState with config := { sampleState.config with timeout := some 5000 } }, 0) :=
  ⟨(setTimeout_enforces_cap sampleState 700000).1 (by decide),
   (setTimeout_enforces_cap sampleState 0).2.1 (by decide),
   (setTimeout_enforces_cap sampleState 5000).2.2 (by decide) (by decide)⟩

/-- C7: LlamaCpp configuration and network errors raised inside the HTTP
execution path propagate unchanged through the catch blocks of
`makeRequest` and `detectDimension`; every other failure is wrapped into a
NetworkError (and every `makeRequest` failure is one of the two adapter
error kinds). -/
theorem llamacpp_errors_not_rewrapped :
    (∀ (s : AdapterState) (e : JsError), isNetOrConfig e = true →
      makeRequest s (.thrown e) = .error e) ∧
    (∀ (s : AdapterState) (e : JsError), isNetOrConfig e = false →
      ∃ msg orig, makeRequest s (.thrown e) = .error (.networkError msg orig)) ∧
    (∀ (s : AdapterState) (o : FetchOutcome) (e : JsError),
      makeRequest s o = .error e → isNetOrConfig e = true) ∧
    (∀ e : JsError, isNetOrConfig e = true →
      detectDimensionCatch (.error e) = .error e) ∧
    (∀ e : JsError, isNetOrConfig e = false →
      ∃ msg orig, detectDimensionCatch (.error e) = .error (.networkError msg orig)) := by
  refine ⟨?_, ?_, ?_, ?_, ?_⟩
  · intro s e he
    cases e with
    | configError m => rfl
    | networkError m o => rfl
    | abortError => simp [isNetOrConfig] at he
    | typeError m => simp [isNetOrConfig] at he
    | otherError m => simp [isNetOrConfig] at he
    | nonError => simp [isNetOrConfig] at he
  · intro s e he
    cases e with
    | configError m => simp [isNetOrConfig] at he
    | networkError m o => simp [isNetOrConfig] at he
    | abortError => exact ⟨_, _, rfl⟩
    | typeError m =>
      by_cases hf : containsFetch m = true
      · exact ⟨_, _, by simp only [makeRequest, makeRequestCatch]; rw [if_pos hf]⟩
      · exact ⟨_, _, by simp only [makeRequest, makeRequestCatch]; rw [if_neg hf]⟩
    | otherError m => exact ⟨_, _, rfl⟩
    | nonError => exact ⟨_, _, rfl⟩
  · intro s o e h
    cases o with
    | ok r => simp [makeRequest] at h
    | notOk st stx bt =>
      simp only [makeRequest] at h
      replace h := Except.error.inj h
      rw [← h]
      rfl
    | badJson pe =>
      simp only [makeRequest] at h
      replace h := Except.error.inj h
      rw [← h]
      rfl
    | thrown e2 =>
      simp only [makeRequest] at h
      replace h := Except.error.inj h
      rw [← h]
      exact makeRequestCatch_netOrConfig _ _ _
  · intro e he
    cases e with
    | configError m => rfl
    | networkError m o => rfl
    | abortError => simp [isNetOrConfig] at he
    | typeError m => simp [isNetOrConfig] at he
    | otherError m => simp [isNetOrConfig] at he
    | nonError => simp [isNetOrConfig] at he
  · intro e he
    cases e with
    | configError m => simp [isNetOrConfig] at he
    | networkError m o => simp [isNetOrConfig] at he
    | abortError => exact ⟨_, _, rfl⟩
    | typeError m => exact ⟨_, _, rfl⟩
    | otherError m => exact ⟨_, _, rfl⟩
    | nonError => exact ⟨_, _, rfl⟩

/-- C7 witness: a ConfigurationError thrown by fetch leaves `makeRequest`
unchanged, and a NetworkError passes `detectDimension`'s catch unchanged. -/
theorem llamacpp_errors_not_rewrapped_witness :
    makeRequest sampleState (.thrown (.configError "boom")) =
      .error (.configError "boom") ∧
    detectDimensionCatch (.error (.networkError "down" none)) =
      .error (.networkError "down" none) :=
  ⟨llamacpp_errors_not_rewrapped.1 sampleState (.configError "boom") rfl,
   llamacpp_errors_not_rewrapped.2.2.2.1 (.networkError "down" none) rfl⟩

/-- C10: with no model configured, `getModel` reports `nomic-embed-code`
while every outbound request body carries `embedding-model`; the two
defaults are inconsistent. -/
theorem default_model_mismatch (cfg : LlamaCppEmbeddingConfig) (s : AdapterState)
    (h1 : construct cfg = .ok s) (h2 : cfg.model = none) :
    getModel s = "nomic-embed-code" ∧ requestModel s = "embedding-model" ∧
    getModel s ≠ requestModel s ∧
    (∀ text, (embedRequestBody s text).model = requestModel s) ∧
    (∀ texts, (embedBatchRequestBody s texts).model = requestModel s) ∧
    (∀ t, (detectRequestBody s t).model = requestModel s) := by
  have hm : s.config.model = none := by rw [(construct_ok_inv h1).2.1, h2]
  have hg : getModel s = "nomic-embed-code" := by simp [getModel, jsOrStr, hm]
  have hr : requestModel s = "embedding-model" := by simp [requestModel, jsOrStr, hm]
  refine ⟨hg, hr, ?_, fun _ => rfl, fun _ => rfl, fun _ => rfl⟩
  rw [hg, hr]
  decide

/-- C10 witness: the mismatch at the freshly constructed sample adapter. -/
theorem default_model_mismatch_witness :
    construct sampleConfig = .ok sampleState ∧ sampleConfig.model = none ∧
    getModel sampleState = "nomic-embed-code" ∧
    requestModel sampleState = "embedding-model" ∧
    getModel sampleState ≠ requestModel sampleState :=
  ⟨rfl, rfl, (default_model_mismatch sampleConfig sampleState rfl rfl).1,
   (default_model_mismatch sampleConfig sampleState rfl rfl).2.1,
   (default_model_mismatch sampleConfig sampleState rfl rfl).2.2.1⟩

/-- C4: with no fixed configured dimension, the first successful embed or
embedBatch call performs exactly one dimension-detection request and sets
the detected flag; every later embed/embedBatch call performs none and
leaves the state (hence the cached dimension) unchanged. -/
theorem dimension_detection_cached (cfg : LlamaCppEmbeddingConfig)
    (s₀ : AdapterState) (server : Server)
    (h1 : construct cfg = .ok s₀) (h2 : jsTruthyNum cfg.dimension = false) :
    (∀ t r₁ s₁ n₁, embed s₀ server t = .ok (r₁, s₁, n₁) →
      n₁ = 1 ∧ s₁.dimensionDetected = true ∧
      (∀ t₂ r₂ s₂ n₂, embed s₁ server t₂ = .ok (r₂, s₂, n₂) → n₂ = 0 ∧ s₂ = s₁) ∧
      (∀ ts₂ r₂ s₂ n₂, embedBatch s₁ server ts₂ = .ok (r₂, s₂, n₂) → n₂ = 0 ∧ s₂ = s₁)) ∧
    (∀ ts r₁ s₁ n₁, embedBatch s₀ server ts = .ok (r₁, s₁, n₁) →
      n₁ = 1 ∧ s₁.dimensionDetected = true ∧
      (∀ t₂ r₂ s₂ n₂, embed s₁ server t₂ = .ok (r₂, s₂, n₂) → n₂ = 0 ∧ s₂ = s₁)) := by
  have hdet : s₀.dimensionDetected = false := ((construct_ok_inv h1).2.2.2.2 h2).2
  have hdim : jsTruthyNum s₀.config.dimension = false := by
    rw [(construct_ok_inv h1).2.2.1]
    exact h2
  have hsub : ∀ s₁ : AdapterState, s₁.dimensionDetected = true →
      ∀ t₂ r₂ s₂ n₂, embed s₁ server t₂ = .ok (r₂, s₂, n₂) → n₂ = 0 ∧ s₂ = s₁ := by
    intro s₁ hd t₂ r₂ s₂ n₂ h
    have he := embed_ok_ensure h
    rw [ensure_noop server hd] at he
    replace he := Except.ok.inj he
    rw [Prod.mk.injEq] at he
    exact ⟨he.2.symm, he.1.symm⟩
  have hsubB : ∀ s₁ : AdapterState, s₁.dimensionDetected = true →
      ∀ ts₂ r₂ s₂ n₂, embedBatch s₁ server ts₂ = .ok (r₂, s₂, n₂) → n₂ = 0 ∧ s₂ = s₁ := by
    intro s₁ hd ts₂ r₂ s₂ n₂ h
    have he := embedBatch_ok_ensure h
    rw [ensure_noop server hd] at he
    replace he := Except.ok.inj he
    rw [Prod.mk.injEq] at he
    exact ⟨he.2.symm, he.1.symm⟩
  constructor
  · intro t r₁ s₁ n₁ h
    have he := embed_ok_ensure h
    obtain ⟨hn, hd, -, -⟩ := ensure_fresh_ok hdet hdim he
    exact ⟨hn, hd, hsub s₁ hd, hsubB s₁ hd⟩
  · intro ts r₁ s₁ n₁ h
    have he := embedBatch_ok_ensure h
    obtain ⟨hn, hd, -, -⟩ := ensure_fresh_ok hdet hdim he
    exact ⟨hn, hd, hsub s₁ hd⟩

/-- C4 witness: against a server with 4-length embeddings, the first embed
detects (count 1, flag set) and a second embed from the detected state
performs no detection and keeps the state. -/
theorem dimension_detection_cached_witness :
    construct sampleConfig = .ok sampleState ∧
    jsTruthyNum sampleConfig.dimension = false ∧
    detectedState.dimensionDetected = true ∧
    embed detectedState (goodServer 4) "bar" =
      .ok ({ vector := List.replicate 4 0, dimension := 4 }, detectedState, 0) := by
  have h := dimension_detection_cached sampleConfig sampleState (goodServer 4) rfl rfl
  have h1 := h.1 "foo" { vector := List.replicate 4 0, dimension := 4 } detectedState 1 rfl
  exact ⟨rfl, rfl, h1.2.1, rfl⟩

/-- C5: with no fixed configured dimension, a successful `setModel` stores
the new name, performs exactly one dimension-detection request, leaves the
detected flag set with `getDimension` equal to the newly detected length;
all other mutators perform no requests. -/
theorem setModel_triggers_one_detection (s : AdapterState) (server : Server) (m : String)
    (hNoFix : jsTruthyNum s.config.dimension = false) :
    (∀ s' n, setModel s server m = .ok (s', n) →
      n = 1 ∧ s'.config.model = some m ∧ s'.dimensionDetected = true ∧
      ∃ d, detectDimension (setModelIntermediate s m) server "test" = .ok d ∧
        getDimension s' = (d : Int)) ∧
    (∀ h s' n, setHost s h = .ok (s', n) → n = 0) ∧
    (∀ b, (setCodePrefix s b).2 = 0) ∧
    (∀ p s' n, setCustomCodePrefix s p = .ok (s', n) → n = 0) ∧
    (∀ t s' n, setTimeout s t = .ok (s', n) → n = 0) := by
  have hint : jsTruthyNum (setModelIntermediate s m).config.dimension = false := hNoFix
  refine ⟨?_, ?_, ?_, ?_, ?_⟩
  · intro s' n h
    unfold setModel at h
    split at h
    · exact absurd h (by simp)
    · simp only [hint, Bool.not_false, if_true] at h
      obtain ⟨hn, hdet, hcfg, d, hd, hdim⟩ := ensure_fresh_ok rfl hint h
      refine ⟨hn, ?_, hdet, d, hd, hdim⟩
      rw [hcfg]
      rfl
  · intro hst s' n h
    unfold setHost at h
    split at h
    · exact absurd h (by simp)
    · replace h := Except.ok.inj h
      rw [Prod.mk.injEq] at h
      exact h.2.symm
  · intro b
    rfl
  · intro p s' n h
    unfold setCustomCodePrefix at h
    split at h
    · exact absurd h (by simp)
    · replace h := Except.ok.inj h
      rw [Prod.mk.injEq] at h
      exact h.2.symm
  · intro t s' n h
    unfold setTimeout at h
    split at h
    · exact absurd h (by simp)
    · split at h
      · exact absurd h (by simp)
      · replace h := Except.ok.inj h
        rw [Prod.mk.injEq] at h
        exact h.2.symm

/-- C5 witness: `setModel "m"` on the fresh sample adapter performs one
detection and stores the new model name with the flag set. -/
theorem setModel_triggers_one_detection_witness :
    jsTruthyNum sampleState.config.dimension = false ∧
    modelState.config.model = some "m" ∧ modelState.dimensionDetected = true := by
  have h := (setModel_triggers_one_detection sampleState (goodServer 4) "m" rfl).1
    modelState 1 rfl
  exact ⟨rfl, h.2.1, h.2.2.1⟩

theorem mapBatchItems_all_ok (dim : Int) (items : List (Option ResponseItem)) (k : Nat)
    (h : items.all (fun it => !itemIsBad it) = true) :
    mapBatchItems dim items k =
      .ok (items.map (fun it => { vector := itemEmbedding it, dimension := dim })) := by
  induction items generalizing k with
  | nil => rfl
  | cons it rest ih =>
    rw [List.all_cons, Bool.and_eq_true] at h
    obtain ⟨hGood, hRest⟩ := h
    cases it with
    | none => simp [itemIsBad] at hGood
    | some r =>
      cases hE : r.embedding with
      | none => simp [itemIsBad, hE] at hGood
      | some emb =>
        simp only [mapBatchItems, hE, ih (k + 1) hRest, List.map_cons]
        simp [itemEmbedding, hE]

theorem mapBatchItems_first_bad (dim : Int) (items : List (Option ResponseItem)) (k : Nat)
    (h : items.any itemIsBad = true) :
    mapBatchItems dim items k =
      .error (.networkError
        (badItemMsg (items.getD (items.findIdx itemIsBad) none) (k + items.findIdx itemIsBad))
        none) := by
  induction items generalizing k with
  | nil => simp at h
  | cons it rest ih =>
    by_cases hb : itemIsBad it = true
    · have hf : (it :: rest).findIdx itemIsBad = 0 := by
        rw [List.findIdx_cons, hb]
        rfl
      rw [hf]
      cases it with
      | none => simp [mapBatchItems, badItemMsg]
      | some r =>
        have hE : r.embedding = none := by
          simp [itemIsBad] at hb
          exact hb
        simp [mapBatchItems, hE, badItemMsg]
    · have hb2 : itemIsBad it = false := by simpa using hb
      have hf : (it :: rest).findIdx itemIsBad = rest.findIdx itemIsBad + 1 := by
        rw [List.findIdx_cons, hb2]
        rfl
      have hAny : rest.any itemIsBad = true := by
        rw [List.any_cons, hb2] at h
        simpa using h
      cases it with
      | none => simp [itemIsBad] at hb2
      | some r =>
        cases hE : r.embedding with
        | none => simp [itemIsBad, hE] at hb2
        | some emb =>
          rw [hf]
          have harith : k + (rest.findIdx itemIsBad + 1) = (k + 1) + rest.findIdx itemIsBad := by
            omega
          simp only [mapBatchItems, hE, ih (k + 1) hAny, List.getD_cons_succ]
          rw [harith]

/-- C6: a batch call is all-or-nothing — when every response element is
well-formed it returns exactly one vector per element in response order,
and when any element is bad the whole call fails with a NetworkError whose
message names the (first) bad element's index, returning no partial list. -/
theorem embedBatch_all_or_nothing (s : AdapterState) (server : Server)
    (texts : List String) (items : List (Option ResponseItem))
    (hDet : s.dimensionDetected = true)
    (hTexts : texts.isEmpty = false)
    (hItems : items.isEmpty = false)
    (hServer : server (embedBatchRequestBody s texts) = .ok (some { data := some items })) :
    (items.all (fun it => !itemIsBad it) = true →
      embedBatch s server texts =
        .ok (items.map (fun it => { vector := itemEmbedding it, dimension := s.dimension }),
          s, 0)) ∧
    (items.any itemIsBad = true →
      embedBatch s server texts =
        .error (.networkError
          (badItemMsg (items.getD (items.findIdx itemIsBad) none) (items.findIdx itemIsBad))
          none)) := by
  have hstep : embedBatch s server texts =
      (match mapBatchItems s.dimension items 0 with
        | .error e => .error e
        | .ok vecs => .ok (vecs, s, 0)) := by
    simp [embedBatch, hTexts, ensure_noop server hDet, hServer, makeRequest, hItems]
  constructor
  · intro hAll
    rw [hstep, mapBatchItems_all_ok s.dimension items 0 hAll]
  · intro hAnyBad
    rw [hstep, mapBatchItems_first_bad s.dimension items 0 hAnyBad]
    simp

/-- C6 witness: a two-element batch returns two vectors in order; with the
second element lacking an embedding the whole call fails naming index 1. -/
theorem embedBatch_all_or_nothing_witness :
    detectedState.dimensionDetected = true ∧
    embedBatch detectedState batchServer ["a", "b"] =
      .ok ([{ vector := [1, 2], dimension := 4 }, { vector := [3, 4], dimension := 4 }],
        detectedState, 0) ∧
    embedBatch detectedState badBatchServer ["a", "b"] =
      .error (.networkError
        "Invalid batch response format: missing or invalid embedding at index 1" none) := by
  refine ⟨rfl, ?_, ?_⟩
  · exact (embedBatch_all_or_nothing detectedState batchServer ["a", "b"]
      [some { embedding := some [1, 2] }, some { embedding := some [3, 4] }]
      rfl rfl rfl rfl).1 (by decide)
  · exact (embedBatch_all_or_nothing detectedState badBatchServer ["a", "b"]
      [some { embedding := some [1, 2] }, some { embedding := none }]
      rfl rfl rfl rfl).2 (by decide)

/-- C8: `getConfig` returns a copy at a fresh reference: the copy holds
the same field values, mutating any field of it leaves the adapter's
stored configuration unchanged, and operations reading the live config
behave the same afterwards. -/
theorem getConfig_returns_copy (h : Heap) (s : RefAdapterState)
    (hRef : s.configRef < h.next) :
    (getConfigRef h s).2 ≠ s.configRef ∧
    heapGet (getConfigRef h s).1 (getConfigRef h s).2 = heapGet h s.configRef ∧
    (∀ w, heapGet (heapWrite (getConfigRef h s).1 (getConfigRef h s).2 w) s.configRef =
      heapGet h s.configRef) ∧
    (∀ w text,
      preprocessTextForCodeRef (heapWrite (getConfigRef h s).1 (getConfigRef h s).2 w) s text =
        preprocessTextForCodeRef h s text) := by
  have hne : s.configRef ≠ h.next := by omega
  have hkey : ∀ w, heapGet (heapWrite (getConfigRef h s).1 (getConfigRef h s).2 w) s.configRef =
      heapGet h s.configRef := by
    intro w
    simp [getConfigRef, heapAlloc, heapWrite, heapSet, heapGet, hne]
  refine ⟨?_, ?_, hkey, ?_⟩
  · simp only [getConfigRef, heapAlloc]
    omega
  · simp [getConfigRef, heapAlloc, heapGet]
  · intro w text
    unfold preprocessTextForCodeRef
    rw [hkey w]

/-- C8 witness: at the one-object sample heap, the copy lives at a fresh
reference and writing its model field leaves the adapter's object intact. -/
theorem getConfig_returns_copy_witness :
    sampleRefState.configRef < sampleHeap.next ∧
    (getConfigRef sampleHeap sampleRefState).2 ≠ sampleRefState.configRef ∧
    heapGet (heapWrite (getConfigRef sampleHeap sampleRefState).1
        (getConfigRef sampleHeap sampleRefState).2 (.modelW (some "changed")))
      sampleRefState.configRef = heapGet sampleHeap sampleRefState.configRef := by
  have h := getConfig_returns_copy sampleHeap sampleRefState (by decide)
  exact ⟨by decide, h.1, h.2.2.1 (.modelW (some "changed"))⟩

/-- C9: the constructor stores the caller's config object by reference;
when `codePrefix` was undefined it writes `true` into that caller-owned
object, and a later external write to the same object changes the
adapter's behaviour. -/
theorem constructor_shares_config (h : Heap) (r : Nat) (h2 : Heap) (s : RefAdapterState)
    (hCP : (heapGet h r).codePrefix = none)
    (hOk : constructRef h r = .ok (h2, s)) :
    s.configRef = r ∧
    (heapGet h2 r).codePrefix = some true ∧
    preprocessTextForCodeRef h2 s "x" ≠
      preprocessTextForCodeRef (heapWrite h2 r (.codePrefixW (some false))) s "x" := by
  unfold constructRef at hOk
  cases hc : construct (heapGet h r) with
  | error e =>
    rw [hc] at hOk
    exact absurd hOk (by simp)
  | ok ps =>
    rw [hc] at hOk
    replace hOk := Except.ok.inj hOk
    rw [Prod.mk.injEq] at hOk
    obtain ⟨hh2, hs⟩ := hOk
    obtain ⟨hpre, -, -, hcp, -⟩ := construct_ok_inv hc
    have hcpT : ps.config.codePrefix = some true := hcp hCP
    subst hh2
    subst hs
    have hget : heapGet (heapSet h r ps.config) r = ps.config := by
      simp [heapGet, heapSet]
    have hget2 : heapGet (heapWrite (heapSet h r ps.config) r (.codePrefixW (some false))) r =
        { ps.config with codePrefix := some false } := by
      simp [heapWrite, heapGet, heapSet, applyWrite]
    refine ⟨rfl, ?_, ?_⟩
    · rw [hget, hcpT]
    · unfold preprocessTextForCodeRef preprocessText
      simp only [hget, hget2, hcpT, hpre, jsTruthyBool]
      decide

/-- C9 witness: constructing over the sample heap stores reference 0,
writes `codePrefix = true` into the caller's object, and a later external
`codePrefix = false` write changes the preprocessing behaviour. -/
theorem constructor_shares_config_witness :
    (heapGet sampleHeap 0).codePrefix = none ∧
    sampleRefState.configRef = 0 ∧
    (heapGet sampleHeapAfter 0).codePrefix = some true ∧
    preprocessTextForCodeRef sampleHeapAfter sampleRefState "x" ≠
      preprocessTextForCodeRef (heapWrite sampleHeapAfter 0 (.codePrefixW (some false)))
        sampleRefState "x" := by
  have h := constructor_shares_config sampleHeap 0 sampleHeapAfter sampleRefState rfl rfl
  exact ⟨rfl, h.1, h.2.1, h.2.2⟩

end LlamaCpp
